import Mathlib

/-!
Verification development for the YT-reindex application (`src/app.py`).

The Python code is shallowly embedded: Python strings are modelled as
`List Char` (via `String.data` at the statement level), Python's string
methods (`replace`, `split`, `strip`, `lower`, `join`) are embedded as
executable Lean functions over `List Char`, the Streamlit session state is
an explicit record threaded through a script-run function, and the external
collaborators (the OpenAI chat completion call and the GoogleNews provider)
are parameters returning `Except`, mirroring Python calls that either
return a value or raise an exception.
-/

namespace YTReindex

/-! ## Python string primitives (over `List Char`) -/

/-- The whitespace characters Python's `str.strip()` removes (ASCII subset). -/
def pyIsSpace (c : Char) : Bool :=
  c = ' ' || c = '\t' || c = '\n' || c = '\r' || c = '\x0b' || c = '\x0c'

/-- Python `str.lower()` on a single character (ASCII range, which covers all
inputs appearing in this development). -/
def pyLower (c : Char) : Char :=
  if 'A' ≤ c && c ≤ 'Z' then Char.ofNat (c.toNat + 32) else c

/-- Python `str.lower()`. -/
def lowerList (s : List Char) : List Char := s.map pyLower

/-- Python `str.strip()`: drop leading and trailing whitespace. -/
def stripList (s : List Char) : List Char :=
  ((s.dropWhile pyIsSpace).reverse.dropWhile pyIsSpace).reverse

/-- Recursion core of `replaceList`. Each step consumes at least one
character, so fuel equal to the string length suffices; the `0` case is
never reached from `replaceList`. Structural recursion on the fuel keeps
the function kernel-reducible. -/
def replaceListFuel (pat rep : List Char) : Nat → List Char → List Char
  | _, [] => []
  | 0, s => s
  | fuel + 1, c :: cs =>
    if pat.isPrefixOf (c :: cs) then
      rep ++ replaceListFuel pat rep fuel (cs.drop (pat.length - 1))
    else
      c :: replaceListFuel pat rep fuel cs

/-- Python `str.replace(pat, rep)`: replace every non-overlapping occurrence
of `pat`, scanning left to right. -/
def replaceList (pat rep s : List Char) : List Char :=
  replaceListFuel pat rep s.length s

/-- Python `str.split(sep)` for a one-character separator: split at every
occurrence, keeping empty pieces. -/
def splitChar (sep : Char) : List Char → List (List Char)
  | [] => [[]]
  | c :: cs =>
    match splitChar sep cs with
    | [] => [[]]
    | t :: ts => if c = sep then [] :: t :: ts else (c :: t) :: ts

/-! ## Keyword-list parsing (`src/app.py` lines 117–122) -/

/-- Lines 121–122: `seen = set()` followed by the comprehension that keeps a
keyword only when its lowercase form has not been seen, accumulating the
lowercase forms in `seen`. -/
def dedupCI_aux (seen : List (List Char)) : List (List Char) → List (List Char)
  | [] => []
  | k :: ks =>
    if lowerList k ∈ seen then dedupCI_aux seen ks
    else k :: dedupCI_aux (lowerList k :: seen) ks

/-- Case-insensitive order-preserving deduplication (lines 120–122). -/
def dedupCI (ks : List (List Char)) : List (List Char) := dedupCI_aux [] ks

/-- Line 117: `keywords_raw.replace("\n", ", ").replace("Keywords:", "").replace("keywords:", "")`. -/
def cleanedOf (raw : List Char) : List Char :=
  replaceList "keywords:".data "".data
    (replaceList "Keywords:".data "".data
      (replaceList "\n".data ", ".data raw))

/-- Lines 117–122: clean the raw LLM response, split on commas, strip each
piece, drop empty pieces, deduplicate case-insensitively keeping first-seen
order and casing. -/
def keywords_list (raw : List Char) : List (List Char) :=
  dedupCI (((splitChar ',' (cleanedOf raw)).map stripList).filter (· ≠ []))

/-! ## Canonical Article and the Provider-B (GoogleNews) adapter
(`src/app.py` lines 185–190) -/

/-- The canonical Article record of the data model (§3), with the field
names the adapter maps onto. -/
structure Article where
  title : String
  description : String
  url : String
  publishedAt : String
  sourceName : String
deriving DecidableEq

/-- Python `item.get(key, default)` on a result dictionary, modelled as an
association list with unique keys. -/
def itemGet (item : List (String × String)) (key dflt : String) : String :=
  match item.lookup key with
  | some v => v
  | none => dflt

/-- Lines 186–190: map a Provider-B (GoogleNews) result dictionary onto the
canonical Article: `title`→title ("Untitled" if absent), `media`→sourceName
("Unknown Source" if absent), `date`→publishedAt, `desc`→description,
`link`→url (empty string if absent). -/
def normalizeB (item : List (String × String)) : Article :=
  { title := itemGet item "title" "Untitled"
    description := itemGet item "desc" ""
    url := itemGet item "link" ""
    publishedAt := itemGet item "date" ""
    sourceName := itemGet item "media" "Unknown Source" }

/-! ## The news-search action (`src/app.py` lines 138–203) -/

/-- Python `" ".join(keywords)` (line 140). -/
def joinSpace : List String → String
  | [] => ""
  | [k] => k
  | k :: ks => k ++ " " ++ joinSpace ks

/-- Line 140: the single query string built for a search. -/
def buildQuery (selected : List String) : String := joinSpace selected

/-- What the search block displays: a list of article cards, the
"no recent news articles" info box, the caught-exception error box
(lines 200–201), or the select-a-keyword warning (line 203). -/
inductive SearchOutcome where
  | results (articles : List Article)
  | noResults
  | fetchError (msg : String)
  | selectWarning
deriving DecidableEq

/-- Lines 138–203: the body under `if search_news:`. With a non-empty
selection one combined query is issued to the provider (GoogleNews
search+result, abstracted as a function returning `Except`, where
`Except.error` models a raised exception caught at line 200); with an
empty selection only a warning is shown. The second component records the
query strings actually sent to the provider. -/
def searchNews (provider : String → Except String (List Article))
    (selected : List String) : SearchOutcome × List String :=
  match selected with
  | [] => (.selectWarning, [])
  | _ :: _ =>
    let query := buildQuery selected
    match provider query with
    | .error e => (.fetchError e, [query])
    | .ok results =>
      (if results.isEmpty then .noResults else .results results, [query])

/-- The search block reads the session state but never writes it; the
action returns the state unchanged alongside the outcome and the issued
queries. -/
def searchAction (provider : String → Except String (List Article))
    (keywords : List (List Char)) (selected : List String) :
    List (List Char) × SearchOutcome × List String :=
  (keywords, searchNews provider selected)

/-- Follows the spec's words (§4.7), for comparison with `searchNews`: the
ResultAggregator runs one provider query per selected keyword and maps a
failing keyword to an empty Article list, leaving the others unaffected. -/
def resultAggregator_spec (provider : String → Except String (List Article))
    (selected : List String) : List (String × List Article) :=
  selected.map fun k =>
    (k, match provider k with
        | .ok arts => arts
        | .error _ => [])

/-- Follows the spec's words (§4.5 strategy (b)), for comparison with
`buildQuery`: join the selected keyword texts as boolean-OR alternatives. -/
def combinedOrQuery_spec : List String → String
  | [] => ""
  | [k] => k
  | k :: ks => k ++ " OR " ++ combinedOrQuery_spec ks

/-! ## One top-to-bottom script run (`src/app.py` lines 21–125)

Streamlit re-executes the script on every interaction; the session state
persists across runs. `scriptRun` embeds one execution of the key check,
the storing of a newly obtained transcript, and the keyword-extraction
stage. -/

/-- The persistent Streamlit session state: the stored transcript
(`st.session_state["transcript_text"]`) and the stored keyword list
(`st.session_state["keywords"]`); `none` models an absent key. -/
structure SessionState where
  transcript_text : Option String
  keywords : Option (List (List Char))
deriving DecidableEq

/-- A message surfaced to the user (`st.error` / `st.warning` / `st.info`). -/
inductive Msg where
  | error (text : String)
  | warning (text : String)
  | info (text : String)
deriving DecidableEq

/-- Result of one script run: the updated session state, the messages
shown, and how many LLM (chat-completion) calls were attempted. -/
structure RunResult where
  state : SessionState
  msgs : List Msg
  llmCalls : Nat
deriving DecidableEq

/-- Python truthiness of `st.secrets.get(...)` (line 22, `if not
openai_api_key`): falsy when absent or the empty string. -/
def pyTruthyStr : Option String → Bool
  | none => false
  | some s => s ≠ ""

/-- Line 23: the error shown when the OpenAI API key is missing. -/
def keyErrText : String :=
  "OpenAI API key not found! Please add your OpenAI API key to Streamlit secrets."

/-- Lines 21–125 of one script execution.
* Lines 21–25: the key check — when the secret is falsy an error message is
  shown, and the script then simply continues (the `else` only sets
  `openai.api_key`).
* Lines 62–63 / 83–84: a transcript newly obtained in this run (from
  transcription or file upload, both external collaborators) is stored into
  the session state when truthy.
* Lines 87–125: when a transcript is in the session state, extraction runs
  iff `"keywords"` is absent from the session state; the external chat
  completion (`llm`, `Except.error` models a raised exception) is called,
  its output parsed by `keywords_list` and stored; an exception is caught
  at line 124 and shown as an error. -/
def scriptRun (secrets : Option String) (llm : String → Except String String)
    (st0 : SessionState) (newTranscript : Option String) : RunResult :=
  let keyMsgs := if pyTruthyStr secrets then [] else [Msg.error keyErrText]
  let st1 :=
    match newTranscript with
    | some t => if t ≠ "" then { st0 with transcript_text := some t } else st0
    | none => st0
  match st1.transcript_text with
  | none => ⟨st1, keyMsgs, 0⟩
  | some t =>
    match st1.keywords with
    | some _ => ⟨st1, keyMsgs, 0⟩
    | none =>
      match llm t with
      | .ok raw =>
        ⟨{ st1 with keywords := some (keywords_list raw.data) }, keyMsgs, 1⟩
      | .error e =>
        ⟨st1, keyMsgs ++ [Msg.error ("Error extracting keywords: " ++ e)], 1⟩

/-! ## The 90-day date window (`src/app.py` line 144) -/

/-- Line 144: the period argument passed to `GoogleNews(lang="en",
region="US", period="90d")`. -/
def googleNewsPeriod : String := "90d"

/-- Modelled from the spec: the window length in days encoded by the period
argument; the spec (§4.5) says the window defaults to 90 days. The code
passes the literal `"90d"`; the parsing of that literal lives in the
external GoogleNews library, not under `src/`. -/
def windowDays : Nat := 90

/-- A calendar date (proleptic Gregorian). -/
structure Date where
  year : Nat
  month : Nat
  day : Nat
deriving DecidableEq

def isLeap (y : Nat) : Bool :=
  (y % 4 = 0 && y % 100 ≠ 0) || y % 400 = 0

def daysInMonth (y m : Nat) : Nat :=
  if m = 2 then (if isLeap y then 29 else 28)
  else if m = 4 || m = 6 || m = 9 || m = 11 then 30
  else 31

def prevDay (d : Date) : Date :=
  if d.day > 1 then { d with day := d.day - 1 }
  else if d.month > 1 then ⟨d.year, d.month - 1, daysInMonth d.year (d.month - 1)⟩
  else ⟨d.year - 1, 12, 31⟩

def subDays (d : Date) : Nat → Date
  | 0 => d
  | n + 1 => subDays (prevDay d) n

/-- Two-digit zero-padded decimal rendering. -/
def pad2 (n : Nat) : String :=
  if n < 10 then "0" ++ toString n else toString n

/-- ISO calendar date, no time component. -/
def isoFormat (d : Date) : String :=
  toString d.year ++ "-" ++ pad2 d.month ++ "-" ++ pad2 d.day

/-- Modelled from the spec: the `fromDate` the period-style backend's
window corresponds to (§4.5) — the caller's "now" minus the window length.
The code itself delegates this arithmetic to the external GoogleNews
library via `period="90d"`. -/
def fromDate (now : Date) : Date := subDays now windowDays

/-! ## Tokenizer/FrequencyExtractor (spec §4.1) -/

/-- ASCII letter or digit. -/
def pyIsAlnum (c : Char) : Bool :=
  ('a' ≤ c && c ≤ 'z') || ('A' ≤ c && c ≤ 'Z') || ('0' ≤ c && c ≤ '9')

/-- Split a character list at every character satisfying `p`, keeping empty
pieces (dropped by the caller). -/
def splitWhen (p : Char → Bool) : List Char → List (List Char)
  | [] => [[]]
  | c :: cs =>
    match splitWhen p cs with
    | [] => [[]]
    | t :: ts => if p c then [] :: t :: ts else (c :: t) :: ts

/-- Count occurrences into an association list ordered by first occurrence. -/
def bumpCount (w : List Char) : List (List Char × Nat) → List (List Char × Nat)
  | [] => [(w, 1)]
  | (x, n) :: rest =>
    if x = w then (x, n + 1) :: rest else (x, n) :: bumpCount w rest

/-- Occurrence counts in first-occurrence order. -/
def countsInOrder (ws : List (List Char)) : List (List Char × Nat) :=
  ws.foldl (fun acc w => bumpCount w acc) []

/-- Insert into a count-descending list, before the first entry with a
count ≤ the inserted one; combined with `sortByCount` below this is a
stable descending sort (earlier entries stay before later entries of equal
count). -/
def insertByCount (x : List Char × Nat) : List (List Char × Nat) → List (List Char × Nat)
  | [] => [x]
  | y :: ys => if y.2 ≤ x.2 then x :: y :: ys else y :: insertByCount x ys

/-- Stable insertion sort by count, descending. -/
def sortByCount : List (List Char × Nat) → List (List Char × Nat)
  | [] => []
  | x :: xs => insertByCount x (sortByCount xs)

/-- Modelled from the spec: the Tokenizer/FrequencyExtractor (§4.1) is part
of this repository not present under `src/` (`src/app.py` holds only the
LLM extraction path). Per the spec: lowercase the text, split into word
tokens, discard tokens that are pure punctuation or stopwords, count
occurrences, sort by count descending with ties broken by first-occurrence
order (stable sort), cap to the top 20. -/
def freqExtract (stopwords : List (List Char)) (transcript : List Char) :
    List (List Char × Nat) :=
  let toks := (splitWhen pyIsSpace (lowerList transcript)).filter (· ≠ [])
  let kept := toks.filter fun w => w.any pyIsAlnum && w ∉ stopwords
  (sortByCount (countsInOrder kept)).take 20

/-! ## Concrete fixtures used by witnesses and counterexamples -/

/-- A sample article returned for the query `"A"`. -/
def artA : Article := ⟨"A headline", "", "http://a", "", "SrcA"⟩

/-- A provider that succeeds (non-empty) exactly on keyword `"A"`'s own
query and fails on every other query — in particular on every query
involving `"B"`. -/
def provC2 : String → Except String (List Article) :=
  fun q => if q = "A" then .ok [artA] else .error "provider failure"

/-- A provider that always succeeds with an empty article list. -/
def provOk : String → Except String (List Article) := fun _ => .ok []

/-- An LLM stub answering `"alpha"` for transcript `"T1"` and `"beta"`
for any other transcript. -/
def llmC4 : String → Except String String :=
  fun t => if t = "T1" then .ok "alpha" else .ok "beta"

/-! ## Theorems for the claims -/

set_option maxRecDepth 4000

/-- Claim C1: the keyword parser of lines 117–122, applied to the raw LLM
response `"Keywords: ai, AI, machine learning\n ethics"`, normalizes the
newline to a comma, strips the label, splits on commas, trims, drops empty
pieces and deduplicates case-insensitively keeping first-seen order and
casing, returning exactly `["ai", "machine learning", "ethics"]`. -/
theorem llm_output_cleanup :
    keywords_list "Keywords: ai, AI, machine learning\n ethics".data =
      ["ai".data, "machine learning".data, "ethics".data] := by decide

/-- Claim C2, counterexample: with selected keywords `["A", "B"]` and a
provider that succeeds (non-empty) on `"A"`'s own query but fails on any
query involving `"B"`, the code issues the single combined query `"A B"`
and the whole action degrades to a caught error with no articles at all —
it does not produce the claimed map with `A` non-empty and `B` empty
(which is what the spec-following per-keyword aggregator would return). -/
theorem combined_failure_not_isolated_cex :
    searchNews provC2 ["A", "B"] = (.fetchError "provider failure", ["A B"]) ∧
    searchNews provC2 ["A"] = (.results [artA], ["A"]) ∧
    resultAggregator_spec provC2 ["A", "B"] = [("A", [artA]), ("B", [])] := by decide

/-- Claim C2, amended: the search action issues exactly one combined query
for all selected keywords; when the provider fails on that query the
exception is caught at the action boundary and the outcome is an error
with no articles for any selected keyword — the failure is not isolated
per keyword. -/
theorem combined_failure_amended (p : String → Except String (List Article))
    (ks : List String) (e : String) (h : ks ≠ [])
    (hf : p (buildQuery ks) = .error e) :
    searchNews p ks = (.fetchError e, [buildQuery ks]) := by
  match ks with
  | [] => exact absurd rfl h
  | k :: ks' => simp only [searchNews, hf]

/-- Witness for `combined_failure_amended` at the concrete provider
`provC2` and selection `["A", "B"]`. -/
theorem combined_failure_amended_witness :
    searchNews provC2 ["A", "B"] =
      (.fetchError "provider failure", [buildQuery ["A", "B"]]) :=
  combined_failure_amended provC2 ["A", "B"] "provider failure"
    (by decide) rfl

/-- Claim C3, counterexample: with the OpenAI API key absent and a
transcript in the session, the script shows the key error but does not
halt — the extraction stage still executes (one LLM call is attempted,
whose failure is caught and shown as a recoverable error). -/
theorem missing_key_cex :
    scriptRun none (fun _ => .error "No API key provided")
        ⟨some "hello", none⟩ none =
      ⟨⟨some "hello", none⟩,
       [.error keyErrText,
        .error "Error extracting keywords: No API key provided"], 1⟩ := by
  decide

/-- Claim C3, amended: the missing-credential check runs once at the top of
the script, before any pipeline stage, and reports an error message first;
but it is not fatal — with a transcript in the session the extraction
stage still executes (exactly one LLM call is attempted), and no error
condition halts the flow. -/
theorem missing_key_nonfatal (llm : String → Except String String) (t : String) :
    (scriptRun none llm ⟨some t, none⟩ none).msgs.head? =
        some (.error keyErrText) ∧
    (scriptRun none llm ⟨some t, none⟩ none).llmCalls = 1 := by
  cases h : llm t <;> simp [scriptRun, pyTruthyStr, h]

/-- Witness for `missing_key_nonfatal` at a concrete LLM stub and
transcript. -/
theorem missing_key_nonfatal_witness :
    (scriptRun none llmC4 ⟨some "T1", none⟩ none).msgs.head? =
        some (.error keyErrText) ∧
    (scriptRun none llmC4 ⟨some "T1", none⟩ none).llmCalls = 1 :=
  missing_key_nonfatal llmC4 "T1"

/-- Claim C4: extraction is guarded by `"keywords" not in st.session_state`
(line 95), which ignores which transcript produced them; after the session
holds keywords from transcript `"T1"`, loading the new transcript `"T2"`
leaves the stale keyword `"alpha"` (derived from `"T1"`) in the session,
although extracting `"T2"` would yield `["beta"]` — prior state is kept,
not replaced, contradicting the code's own line-94 comment and the spec. -/
theorem stale_keywords_on_new_transcript :
    (scriptRun (some "sk") llmC4 ⟨none, none⟩ (some "T1")).state =
      ⟨some "T1", some ["alpha".data]⟩ ∧
    (scriptRun (some "sk") llmC4 ⟨some "T1", some ["alpha".data]⟩
        (some "T2")).state =
      ⟨some "T2", some ["alpha".data]⟩ ∧
    keywords_list "beta".data = ["beta".data] := by decide

/-- Claim C5, counterexample: the single query built for the selection
`["A", "B"]` is the space-join `"A B"` (line 140), not the boolean-OR join
`"A OR B"` the claim describes. -/
theorem combined_query_not_or_cex :
    buildQuery ["A", "B"] = "A B" ∧
    combinedOrQuery_spec ["A", "B"] = "A OR B" ∧
    buildQuery ["A", "B"] ≠ combinedOrQuery_spec ["A", "B"] := by decide

/-- Claim C5, amended: for every non-empty selection the planner issues
exactly one query, whose string joins the selected keyword texts with
single spaces, in selection order. -/
theorem combined_query_space_join (p : String → Except String (List Article))
    (ks : List String) (h : ks ≠ []) :
    (searchNews p ks).2 = [joinSpace ks] := by
  match ks with
  | k :: ks' =>
    cases hp : p (buildQuery (k :: ks')) <;>
      · simp only [searchNews, hp]
        simp [buildQuery]

/-- Witness for `combined_query_space_join` at a concrete provider and
selection. -/
theorem combined_query_space_join_witness :
    (searchNews provOk ["A", "B"]).2 = [joinSpace ["A", "B"]] :=
  combined_query_space_join provOk ["A", "B"] (by decide)

/-- Claim C6: the search is invoked with the period literal `"90d"` — a
90-day window — and the `fromDate` that window corresponds to is the
caller's "now" minus 90 days as an ISO calendar date: for now =
2024-06-01 it is 2024-03-03. -/
theorem date_window_default :
    googleNewsPeriod = toString windowDays ++ "d" ∧
    fromDate ⟨2024, 6, 1⟩ = ⟨2024, 3, 3⟩ ∧
    isoFormat (fromDate ⟨2024, 6, 1⟩) = "2024-03-03" := by decide

/-- The dedup pass of lines 121–122 is idempotent for any starting `seen`
accumulator. -/
theorem dedupCI_aux_idem (ks : List (List Char)) :
    ∀ seen, dedupCI_aux seen (dedupCI_aux seen ks) = dedupCI_aux seen ks := by
  induction ks with
  | nil => intro seen; rfl
  | cons k ks ih =>
    intro seen
    by_cases h : lowerList k ∈ seen
    · simp only [dedupCI_aux, if_pos h]
      exact ih seen
    · simp only [dedupCI_aux, if_neg h]
      rw [ih (lowerList k :: seen)]

/-- Claim C7: the case-insensitive deduplication (lines 120–122) is
idempotent — applied to its own output it returns that output unchanged,
for every list of candidate keyword strings. -/
theorem dedup_idempotent (ks : List (List Char)) :
    dedupCI (dedupCI ks) = dedupCI ks :=
  dedupCI_aux_idem ks []

/-- Witness for `dedup_idempotent` at a concrete candidate list. -/
theorem dedup_idempotent_witness :
    dedupCI (dedupCI ["Ai".data, "ai".data, "Ethics".data]) =
      dedupCI ["Ai".data, "ai".data, "Ethics".data] :=
  dedup_idempotent ["Ai".data, "ai".data, "Ethics".data]

/-- Claim C8: the Provider-B adapter (lines 186–190) maps `title`→title,
`desc`→description, `media`→sourceName, `date`→publishedAt, `link`→url,
substitutes `"Untitled"` for a missing title and `"Unknown Source"` for a
missing media field instead of failing, and on the concrete item
maps to the claimed canonical Article. -/
theorem providerB_normalization (item : List (String × String)) :
    (∀ t, item.lookup "title" = some t → (normalizeB item).title = t) ∧
    (∀ d, item.lookup "desc" = some d → (normalizeB item).description = d) ∧
    (∀ m, item.lookup "media" = some m → (normalizeB item).sourceName = m) ∧
    (∀ a, item.lookup "date" = some a → (normalizeB item).publishedAt = a) ∧
    (∀ u, item.lookup "link" = some u → (normalizeB item).url = u) ∧
    (item.lookup "title" = none → (normalizeB item).title = "Untitled") ∧
    (item.lookup "media" = none →
      (normalizeB item).sourceName = "Unknown Source") ∧
    normalizeB [("title", "T"), ("desc", "D"), ("media", "M"),
        ("date", "2024-01-01"), ("link", "http://x")] =
      ⟨"T", "D", "http://x", "2024-01-01", "M"⟩ := by
  refine ⟨fun t h => ?_, fun d h => ?_, fun m h => ?_, fun a h => ?_,
    fun u h => ?_, fun h => ?_, fun h => ?_, by decide⟩ <;>
    simp [normalizeB, itemGet, h]

/-- Witness for `providerB_normalization`: the concrete mapped item and
the default substitutions on an item missing title and media. -/
theorem providerB_normalization_witness :
    (normalizeB [("title", "T"), ("desc", "D"), ("media", "M"),
        ("date", "2024-01-01"), ("link", "http://x")]).title = "T" ∧
    (normalizeB [("desc", "D")]).title = "Untitled" ∧
    (normalizeB [("desc", "D")]).sourceName = "Unknown Source" :=
  ⟨(providerB_normalization _).1 "T" (by decide),
   (providerB_normalization [("desc", "D")]).2.2.2.2.2.1 (by decide),
   (providerB_normalization [("desc", "D")]).2.2.2.2.2.2.1 (by decide)⟩

/-- Claim C9: the frequency extractor on
`"the cat sat on the mat the cat ran"` with stopwords `{the, on}` returns
cat (2), sat (1), mat (1), ran (1) in exactly that order — count
descending, ties in first-occurrence order; the extractor is a pure
function, hence deterministic. -/
theorem frequency_extraction_example :
    freqExtract ["the".data, "on".data]
        "the cat sat on the mat the cat ran".data =
      [("cat".data, 2), ("sat".data, 1), ("mat".data, 1), ("ran".data, 1)] := by
  decide

/-- Claim C10: submitting the search form with an empty selection issues no
provider query, leaves the session keywords unchanged, and only shows the
select-a-keyword warning (lines 139, 202–203). -/
theorem empty_selection_warns (p : String → Except String (List Article))
    (keywords : List (List Char)) :
    searchAction p keywords [] = (keywords, .selectWarning, []) :=
  rfl

/-- Witness for `empty_selection_warns` at a concrete provider and
keyword state. -/
theorem empty_selection_warns_witness :
    searchAction provOk ["k".data] [] = (["k".data], .selectWarning, []) :=
  empty_selection_warns provOk ["k".data]

end YTReindex
